import Mathlib

/-!
Shallow embedding of `src/main.py` (a FastAPI app that shells out to the
yt-dlp downloader and the ffmpeg transcoder).

External effects are modelled by explicit world records: for each request,
the world fixes the exit codes and captured stderr of the launched external
processes, whether the destination file got created and its size, and
whether the final unlink of the destination file raises an OS error.
Handlers are pure functions from a request and a world to an `Outcome`
recording the HTTP-level result, the final state of the destination file,
how many unlink calls ran, the commands launched, and the allocated output
path.  Python exception flow (try/except/finally, with an exception raised
by the finally block replacing the in-flight result) is made explicit.
-/

namespace YtApp

/-- Request model (`MediaRequest` in src/main.py): `videoUrl` plus a
`format` whose pydantic default is `"bestaudio/best"`. -/
structure MediaRequest where
  videoUrl : String
  format : String
deriving DecidableEq

/-- The pydantic default for the `format` field. -/
def defaultFormat : String := "bestaudio/best"

/-- Builds the validated request from a request body: a missing `format`
field takes the declared default. -/
def mkMediaRequest (url : String) (fmt : Option String) : MediaRequest :=
  ⟨url, fmt.getD defaultFormat⟩

/-- `YT_DLP_PATH` in src/main.py. -/
def YT_DLP_PATH : String := "yt-dlp"

/-- `FFMPEG_PATH` in src/main.py. -/
def FFMPEG_PATH : String := "ffmpeg"

/-- `BASE_DOWNLOAD_DIR` in src/main.py (`Path("./downloads")`; its string
form is `downloads`). -/
def BASE_DOWNLOAD_DIR : String := "downloads"

/-- `BASE_DOWNLOAD_DIR / "audio.mp3"`, the fixed output path of the mp3
endpoint. -/
def audioOutputFile : String := BASE_DOWNLOAD_DIR ++ "/audio.mp3"

/-- `BASE_DOWNLOAD_DIR / "video.mp4"`, the fixed output path of the video
endpoint. -/
def videoOutputFile : String := BASE_DOWNLOAD_DIR ++ "/video.mp4"

/-- The downloader command built in `download_media`: stream the selected
format to stdout (`-o -`). -/
def ytDlpStreamCommand (videoUrl mediaFormat : String) : List String :=
  [YT_DLP_PATH, videoUrl, "--format", mediaFormat, "-o", "-"]

/-- The transcoder command built in `download_media`: read stdin, drop
video, encode mp3 at fixed codec, rate and bitrate, write `outputFile`. -/
def ffmpegCommand (outputFile : String) : List String :=
  [FFMPEG_PATH, "-i", "pipe:0", "-vn", "-acodec", "libmp3lame",
   "-ar", "44100", "-ab", "192k", "-f", "mp3", outputFile]

/-- The downloader command built in `youtube_to_video`: download straight
to `outputFile`. -/
def ytDlpFileCommand (videoUrl mediaFormat outputFile : String) : List String :=
  [YT_DLP_PATH, videoUrl, "--format", mediaFormat, "-o", outputFile]

/-- Python exceptions that the handlers raise or catch: FastAPI
`HTTPException(status_code, detail)` and a plain `Exception(message)`. -/
inductive PyExc where
  | httpExc (statusCode : Nat) (detail : String)
  | exc (message : String)
deriving DecidableEq

/-- Python `str(e)`: starlette renders an HTTPException as
`"<status>: <detail>"`; a plain Exception renders as its message. -/
def PyExc.str : PyExc → String
  | .httpExc s d => toString s ++ ": " ++ d
  | .exc m => m

/-- External behaviour of one audio-conversion run: exit codes and stderr
of the two launched processes, whether ffmpeg created the destination file
and its size, and whether the cleanup unlink raises. -/
structure AudioWorld where
  ytdlpExit : Int
  ytdlpStderr : String
  ffmpegExit : Int
  ffmpegStderr : String
  fileCreated : Bool
  fileSize : Nat
  unlinkFails : Bool
deriving DecidableEq

/-- External behaviour of one video-download run: exit code and captured
stderr of yt-dlp, whether the destination file got created and its size,
and whether the cleanup unlink raises. -/
structure VideoWorld where
  ytdlpExit : Int
  ytdlpStderr : String
  fileCreated : Bool
  fileSize : Nat
  unlinkFails : Bool
deriving DecidableEq

/-- `download_media` in src/main.py: after `communicate()`, only the
ffmpeg return code is inspected (the yt-dlp exit status is never read);
a non-zero ffmpeg exit raises `Exception("FFmpeg error: <stderr>")`,
which the surrounding `except` rewraps into
`HTTPException(500, "Error processing video: <str(e)>")`. -/
def download_media (w : AudioWorld) : Except PyExc Unit :=
  if w.ffmpegExit ≠ 0 then
    Except.error (PyExc.httpExc 500
      ("Error processing video: " ++ ("FFmpeg error: " ++ w.ffmpegStderr)))
  else
    Except.ok ()

/-- Result a handler hands to the HTTP layer: a `FileResponse(path,
media_type, filename)`, a raised `HTTPException`, or an uncaught OS error
escaping the `finally` block (from a failing unlink). -/
inductive HandlerResult where
  | fileResponse (path mediaType filename : String)
  | httpError (statusCode : Nat) (detail : String)
  | osError
deriving DecidableEq

/-- Whether the handler result is a successful file response. -/
def HandlerResult.isSuccess : HandlerResult → Bool
  | .fileResponse _ _ _ => true
  | _ => false

/-- Everything observable about one conversion request: the result handed
to the HTTP layer, whether the destination file still exists afterwards,
how many unlink calls ran, the external commands launched, and the output
path the handler allocated (none when validation failed first). -/
structure Outcome where
  result : HandlerResult
  fsExists : Bool
  unlinkCalls : Nat
  launched : List (List String)
  outputPath : Option String
deriving DecidableEq

/-- The `finally` block of both conversion handlers:
`if output_file.exists(): output_file.unlink()`.  If the unlink raises,
the exception escapes the handler and replaces the pending result. -/
def runFinally (pending : HandlerResult) (fileExists unlinkFails : Bool)
    (launched : List (List String)) (path : String) : Outcome :=
  if fileExists then
    if unlinkFails then
      ⟨HandlerResult.osError, true, 1, launched, some path⟩
    else
      ⟨pending, false, 1, launched, some path⟩
  else
    ⟨pending, false, 0, launched, some path⟩

/-- The try-block of `youtube_to_mp3`: run `download_media`, then raise
`HTTPException(500, "Audio conversion failed, file not created.")` when
the destination file does not exist, else return the `FileResponse`. -/
def mp3TryBody (w : AudioWorld) : Except PyExc HandlerResult :=
  match download_media w with
  | Except.error e => Except.error e
  | Except.ok _ =>
    if w.fileCreated then
      Except.ok (HandlerResult.fileResponse audioOutputFile "audio/mpeg" "audio.mp3")
    else
      Except.error (PyExc.httpExc 500 "Audio conversion failed, file not created.")

/-- The try-block of `youtube_to_video`: run yt-dlp writing straight to
the destination; a non-zero exit raises
`Exception("yt-dlp error: <stderr>")`; a missing destination raises
`HTTPException(500, "Video download failed, file not created.")`. -/
def videoTryBody (w : VideoWorld) : Except PyExc HandlerResult :=
  if w.ytdlpExit ≠ 0 then
    Except.error (PyExc.exc ("yt-dlp error: " ++ w.ytdlpStderr))
  else if w.fileCreated then
    Except.ok (HandlerResult.fileResponse videoOutputFile "video/mp4" "video.mp4")
  else
    Except.error (PyExc.httpExc 500 "Video download failed, file not created.")

/-- The blanket `except Exception as e:` of both conversion handlers:
any exception from the try-block, the internal `HTTPException` included,
is rewrapped as `HTTPException(500, "Error processing the request: " ++
str(e))`. -/
def tryExceptWrap (body : Except PyExc HandlerResult) : HandlerResult :=
  match body with
  | Except.ok r => r
  | Except.error e =>
    HandlerResult.httpError 500 ("Error processing the request: " ++ e.str)

/-- The `/api/youtube-to-mp3` handler: validate the URL (400 before any
path allocation or process launch), run the two-stage pipeline, wrap any
exception, and run the `finally` cleanup. -/
def youtube_to_mp3 (request : MediaRequest) (w : AudioWorld) : Outcome :=
  if request.videoUrl = "" then
    ⟨HandlerResult.httpError 400 "Video URL is required.", false, 0, [], none⟩
  else
    runFinally (tryExceptWrap (mp3TryBody w)) w.fileCreated w.unlinkFails
      [ytDlpStreamCommand request.videoUrl request.format,
       ffmpegCommand audioOutputFile]
      audioOutputFile

/-- The `/api/youtube-to-video` handler: validate the URL (400 before any
path allocation or process launch), run the single-stage download, wrap
any exception, and run the `finally` cleanup. -/
def youtube_to_video (request : MediaRequest) (w : VideoWorld) : Outcome :=
  if request.videoUrl = "" then
    ⟨HandlerResult.httpError 400 "Video URL is required.", false, 0, [], none⟩
  else
    runFinally (tryExceptWrap (videoTryBody w)) w.fileCreated w.unlinkFails
      [ytDlpFileCommand request.videoUrl request.format videoOutputFile]
      videoOutputFile

/-- The raw structured output of the extractor, as a partial record: each
key the code reads may be absent from the returned dictionary.
Thumbnails are opaque records, modelled as strings. -/
structure ToolInfo where
  title : Option String
  uploader : Option String
  duration : Option Int
  view_count : Option Int
  upload_date : Option String
  like_count : Option Int
  description : Option String
  thumbnails : Option (List String)
deriving DecidableEq

/-- `VideoMetadata` response model of src/main.py. -/
structure VideoMetadata where
  title : String
  author : String
  length_seconds : Int
  view_count : Int
  upload_date : String
  likes : Int
  description : String
  thumbnails : List String
deriving DecidableEq

/-- Python `dict[key]`: raises a KeyError naming the key when absent.
(Python renders the message as the quoted key name.) -/
def dictGet {α : Type} (key : String) : Option α → Except String α
  | none => Except.error ("KeyError: " ++ key)
  | some v => Except.ok v

/-- The `VideoMetadata(...)` construction in `youtube_metadata`, with the
keyword arguments evaluated left to right: `title`, `uploader`,
`duration`, `upload_date` and `thumbnails` are read with `[]` (KeyError
when missing), while `view_count`, `like_count` and `description` are
read with `.get` and default to `0`, `0` and `""`. -/
def buildMetadata (info : ToolInfo) : Except String VideoMetadata :=
  match dictGet "title" info.title with
  | Except.error m => Except.error m
  | Except.ok t =>
  match dictGet "uploader" info.uploader with
  | Except.error m => Except.error m
  | Except.ok a =>
  match dictGet "duration" info.duration with
  | Except.error m => Except.error m
  | Except.ok d =>
  match dictGet "upload_date" info.upload_date with
  | Except.error m => Except.error m
  | Except.ok ud =>
  match dictGet "thumbnails" info.thumbnails with
  | Except.error m => Except.error m
  | Except.ok th =>
    Except.ok ⟨t, a, d, info.view_count.getD 0, ud,
               info.like_count.getD 0, info.description.getD "", th⟩

/-- Outcome of the metadata endpoint: the response or raised exception,
plus how many times the extractor was invoked. -/
structure MetaOutcome where
  result : Except PyExc VideoMetadata
  extractorCalls : Nat

/-- The `/api/youtube-video-details` handler: validate the URL (400
before invoking the extractor), run the extractor (`fetch` is its result:
either the returned dictionary or the message of the exception it
raised), build the metadata, and map every failure to
`HTTPException(500, "Error fetching video details: <str(e)>")`. -/
def youtube_metadata (video : MediaRequest) (fetch : Except String ToolInfo) :
    MetaOutcome :=
  if video.videoUrl = "" then
    ⟨Except.error (PyExc.httpExc 400 "Video URL is required."), 0⟩
  else
    match fetch with
    | Except.error m =>
      ⟨Except.error (PyExc.httpExc 500 ("Error fetching video details: " ++ m)), 1⟩
    | Except.ok info =>
      match buildMetadata info with
      | Except.error m =>
        ⟨Except.error (PyExc.httpExc 500 ("Error fetching video details: " ++ m)), 1⟩
      | Except.ok md => ⟨Except.ok md, 1⟩

/-- A successful audio run: both processes exit zero, the file is created
non-empty, the unlink works. -/
def audioWorldOk : AudioWorld := ⟨0, "", 0, "", true, 2048, false⟩

/-- A successful video run. -/
def videoWorldOk : VideoWorld := ⟨0, "", true, 4096, false⟩

/-- An audio run where the downloader exits non-zero while ffmpeg exits
zero having produced an empty destination file. -/
def audioWorldStage1Failed : AudioWorld := ⟨1, "network unreachable", 0, "", true, 0, false⟩

/-- An audio run where ffmpeg fails and never creates the destination. -/
def audioWorldNoFile : AudioWorld := ⟨0, "", 1, "ffmpeg failed", false, 0, false⟩

/-- A successful audio run whose cleanup unlink raises. -/
def audioWorldUnlinkFail : AudioWorld := ⟨0, "", 0, "", true, 2048, true⟩

/-- A successful video run whose cleanup unlink raises. -/
def videoWorldUnlinkFail : VideoWorld := ⟨0, "", true, 4096, true⟩

/-- An audio run where every process exits zero yet no file appears. -/
def audioWorldFileMissing : AudioWorld := ⟨0, "", 0, "", false, 0, false⟩

/-- A video run where yt-dlp exits zero yet no file appears. -/
def videoWorldFileMissing : VideoWorld := ⟨0, "", false, 0, false⟩

/-- The `finally` block leaves the launched-command log untouched. -/
theorem runFinally_launched (p : HandlerResult) (e u : Bool)
    (l : List (List String)) (path : String) :
    (runFinally p e u l path).launched = l := by
  unfold runFinally
  split
  · split <;> rfl
  · rfl

/-- The `finally` block leaves the allocated path untouched. -/
theorem runFinally_outputPath (p : HandlerResult) (e u : Bool)
    (l : List (List String)) (path : String) :
    (runFinally p e u l path).outputPath = some path := by
  unfold runFinally
  split
  · split <;> rfl
  · rfl

/-- When the unlink does not raise, the `finally` block passes the pending
result through unchanged. -/
theorem runFinally_result_of_unlink_ok (p : HandlerResult) (e : Bool)
    (l : List (List String)) (path : String) :
    (runFinally p e false l path).result = p := by
  unfold runFinally
  split <;> rfl

/-- On a non-empty URL with a working unlink, the mp3 handler returns the
wrapped try-block result. -/
theorem youtube_to_mp3_result (req : MediaRequest) (w : AudioWorld)
    (h : ¬req.videoUrl = "") (hu : w.unlinkFails = false) :
    (youtube_to_mp3 req w).result = tryExceptWrap (mp3TryBody w) := by
  unfold youtube_to_mp3
  rw [if_neg h, hu, runFinally_result_of_unlink_ok]

/-- On a non-empty URL with a working unlink, the video handler returns
the wrapped try-block result. -/
theorem youtube_to_video_result (req : MediaRequest) (w : VideoWorld)
    (h : ¬req.videoUrl = "") (hu : w.unlinkFails = false) :
    (youtube_to_video req w).result = tryExceptWrap (videoTryBody w) := by
  unfold youtube_to_video
  rw [if_neg h, hu, runFinally_result_of_unlink_ok]

/-- C4: a request whose `videoUrl` is empty makes each of the three
endpoints raise `HTTPException(400, "Video URL is required.")` at once:
no output path is allocated, no external command is launched, the
extractor is never invoked, no unlink runs. -/
theorem empty_url_rejected_without_process (fmt : String) (wa : AudioWorld)
    (wv : VideoWorld) (fetch : Except String ToolInfo) :
    (youtube_metadata ⟨"", fmt⟩ fetch).result =
        Except.error (PyExc.httpExc 400 "Video URL is required.")
  ∧ (youtube_metadata ⟨"", fmt⟩ fetch).extractorCalls = 0
  ∧ youtube_to_mp3 ⟨"", fmt⟩ wa =
      ⟨HandlerResult.httpError 400 "Video URL is required.", false, 0, [], none⟩
  ∧ youtube_to_video ⟨"", fmt⟩ wv =
      ⟨HandlerResult.httpError 400 "Video URL is required.", false, 0, [], none⟩ := by
  refine ⟨rfl, rfl, ?_, ?_⟩
  · unfold youtube_to_mp3
    rfl
  · unfold youtube_to_video
    rfl

/-- C10: when the request body omits `format`, the video endpoint passes
the audio-oriented default selector `bestaudio/best` to yt-dlp. -/
theorem video_endpoint_default_format (url : String) (wv : VideoWorld)
    (h : ¬url = "") :
    (youtube_to_video (mkMediaRequest url none) wv).launched =
      [[YT_DLP_PATH, url, "--format", "bestaudio/best", "-o", videoOutputFile]] := by
  unfold youtube_to_video mkMediaRequest
  rw [if_neg h, runFinally_launched]
  rfl

/-- C10 witness at a concrete URL. -/
theorem video_endpoint_default_format_witness :
    (youtube_to_video (mkMediaRequest "https://example.com/v" none) videoWorldOk).launched =
      [[YT_DLP_PATH, "https://example.com/v", "--format", "bestaudio/best", "-o",
        videoOutputFile]] :=
  video_endpoint_default_format "https://example.com/v" videoWorldOk (by decide)

/-- C7: for a validated request the audio endpoint launches exactly two
stages, the downloader streaming to stdout piped into the transcoder with
the fixed arguments -vn, -acodec libmp3lame, -ar 44100, -ab 192k, -f mp3
writing to the destination path, while the video endpoint launches a
single stage whose downloader writes directly to the destination path. -/
theorem pipeline_stage_commands (req : MediaRequest) (wa : AudioWorld)
    (wv : VideoWorld) (h : ¬req.videoUrl = "") :
    (youtube_to_mp3 req wa).launched =
      [[YT_DLP_PATH, req.videoUrl, "--format", req.format, "-o", "-"],
       [FFMPEG_PATH, "-i", "pipe:0", "-vn", "-acodec", "libmp3lame",
        "-ar", "44100", "-ab", "192k", "-f", "mp3", audioOutputFile]]
  ∧ (youtube_to_video req wv).launched =
      [[YT_DLP_PATH, req.videoUrl, "--format", req.format, "-o", videoOutputFile]] := by
  constructor
  · unfold youtube_to_mp3
    rw [if_neg h, runFinally_launched]
    rfl
  · unfold youtube_to_video
    rw [if_neg h, runFinally_launched]
    rfl

/-- C7 witness at a concrete request. -/
theorem pipeline_stage_commands_witness :
    (youtube_to_mp3 ⟨"https://example.com/v", defaultFormat⟩ audioWorldOk).launched =
      [[YT_DLP_PATH, "https://example.com/v", "--format", defaultFormat, "-o", "-"],
       [FFMPEG_PATH, "-i", "pipe:0", "-vn", "-acodec", "libmp3lame",
        "-ar", "44100", "-ab", "192k", "-f", "mp3", audioOutputFile]]
  ∧ (youtube_to_video ⟨"https://example.com/v", defaultFormat⟩ videoWorldOk).launched =
      [[YT_DLP_PATH, "https://example.com/v", "--format", defaultFormat, "-o",
        videoOutputFile]] :=
  pipeline_stage_commands ⟨"https://example.com/v", defaultFormat⟩ audioWorldOk
    videoWorldOk (by decide)

/-- C2: the claim fails on the code.  Two distinct concurrent requests to
the same conversion endpoint are allocated the same fixed output path
(`downloads/audio.mp3` resp. `downloads/video.mp4`): there is no
per-request unique filename. -/
theorem shared_fixed_output_path :
    (youtube_to_mp3 ⟨"https://example.com/a", defaultFormat⟩ audioWorldOk).outputPath =
      (youtube_to_mp3 ⟨"https://example.com/b", defaultFormat⟩ audioWorldOk).outputPath
  ∧ (youtube_to_video ⟨"https://example.com/a", defaultFormat⟩ videoWorldOk).outputPath =
      (youtube_to_video ⟨"https://example.com/b", defaultFormat⟩ videoWorldOk).outputPath
  ∧ (youtube_to_mp3 ⟨"https://example.com/a", defaultFormat⟩ audioWorldOk).outputPath =
      some audioOutputFile
  ∧ (youtube_to_video ⟨"https://example.com/a", defaultFormat⟩ videoWorldOk).outputPath =
      some videoOutputFile
  ∧ (⟨"https://example.com/a", defaultFormat⟩ : MediaRequest) ≠
      ⟨"https://example.com/b", defaultFormat⟩ := by
  refine ⟨rfl, rfl, rfl, rfl, ?_⟩
  decide

/-- C1 counterexample: an audio run in which the downloader stage exits
non-zero and the destination file is empty is still reported as a
success, because the code checks only the ffmpeg exit status and bare
file existence — refuting success iff all stages exit zero and the file
is non-empty. -/
theorem success_despite_stage_failure_and_empty_file :
    ((youtube_to_mp3 ⟨"https://example.com/v", defaultFormat⟩
        audioWorldStage1Failed).result).isSuccess = true
  ∧ ¬(audioWorldStage1Failed.ytdlpExit = 0 ∧ audioWorldStage1Failed.ffmpegExit = 0
      ∧ audioWorldStage1Failed.fileSize ≠ 0) := by
  refine ⟨rfl, ?_⟩
  decide

/-- C1 (amended): the audio endpoint reports success iff the transcoder
stage exits zero and the destination file exists — the downloader's exit
status and the file size are ignored; a transcoder failure is surfaced
with that stage's captured stderr.  The video endpoint reports success
iff its single downloader stage exits zero and the destination file
exists (size ignored); a downloader failure is surfaced with its captured
stderr. -/
theorem pipeline_success_criterion (req : MediaRequest) (wa : AudioWorld)
    (wv : VideoWorld) (h : ¬req.videoUrl = "")
    (hua : wa.unlinkFails = false) (huv : wv.unlinkFails = false) :
    (((youtube_to_mp3 req wa).result).isSuccess = true ↔
      (wa.ffmpegExit = 0 ∧ wa.fileCreated = true))
  ∧ (¬wa.ffmpegExit = 0 → (youtube_to_mp3 req wa).result =
      HandlerResult.httpError 500 ("Error processing the request: " ++
        PyExc.str (PyExc.httpExc 500
          ("Error processing video: " ++ ("FFmpeg error: " ++ wa.ffmpegStderr)))))
  ∧ (((youtube_to_video req wv).result).isSuccess = true ↔
      (wv.ytdlpExit = 0 ∧ wv.fileCreated = true))
  ∧ (¬wv.ytdlpExit = 0 → (youtube_to_video req wv).result =
      HandlerResult.httpError 500 ("Error processing the request: " ++
        ("yt-dlp error: " ++ wv.ytdlpStderr))) := by
  rw [youtube_to_mp3_result req wa h hua, youtube_to_video_result req wv h huv]
  refine ⟨?_, ?_, ?_, ?_⟩
  · by_cases hfe : wa.ffmpegExit = 0 <;> by_cases hfc : wa.fileCreated = true <;>
      simp [tryExceptWrap, mp3TryBody, download_media, HandlerResult.isSuccess, hfe, hfc]
  · intro hfe
    simp [tryExceptWrap, mp3TryBody, download_media, hfe]
  · by_cases hve : wv.ytdlpExit = 0 <;> by_cases hvc : wv.fileCreated = true <;>
      simp [tryExceptWrap, videoTryBody, HandlerResult.isSuccess, PyExc.str, hve, hvc]
  · intro hve
    simp [tryExceptWrap, videoTryBody, PyExc.str, hve]

/-- C1 witness: on a fully successful run both endpoints report success,
and on a transcoder failure the diagnostic text carries its stderr. -/
theorem pipeline_success_criterion_witness :
    ((youtube_to_mp3 ⟨"https://example.com/v", defaultFormat⟩
        audioWorldOk).result).isSuccess = true
  ∧ (youtube_to_mp3 ⟨"https://example.com/v", defaultFormat⟩ audioWorldNoFile).result =
      HandlerResult.httpError 500 ("Error processing the request: " ++
        PyExc.str (PyExc.httpExc 500
          ("Error processing video: " ++ ("FFmpeg error: " ++ "ffmpeg failed")))) :=
  ⟨(pipeline_success_criterion ⟨"https://example.com/v", defaultFormat⟩ audioWorldOk
      videoWorldOk (by decide) rfl rfl).1.mpr ⟨rfl, rfl⟩,
   (pipeline_success_criterion ⟨"https://example.com/v", defaultFormat⟩ audioWorldNoFile
      videoWorldOk (by decide) rfl rfl).2.1 (by decide)⟩

/-- C3 counterexample: on a run where the pipeline fails before the
destination file is ever created, the cleanup deletes nothing — zero
unlink calls, not exactly one. -/
theorem cleanup_not_exactly_once :
    ¬(youtube_to_mp3 ⟨"https://example.com/v", defaultFormat⟩
        audioWorldNoFile).unlinkCalls = 1
  ∧ (youtube_to_mp3 ⟨"https://example.com/v", defaultFormat⟩
        audioWorldNoFile).unlinkCalls = 0 := by
  refine ⟨?_, rfl⟩
  decide

/-- C3 (amended): for every conversion request (with a working unlink),
the destination file is deleted at most once before control returns —
exactly once whenever it exists when the cleanup runs — and the
temporary output file does not exist after the request completes. -/
theorem cleanup_deletes_at_most_once (req : MediaRequest) (wa : AudioWorld)
    (wv : VideoWorld) (h : ¬req.videoUrl = "")
    (hua : wa.unlinkFails = false) (huv : wv.unlinkFails = false) :
    ((youtube_to_mp3 req wa).fsExists = false
      ∧ (youtube_to_mp3 req wa).unlinkCalls ≤ 1
      ∧ (wa.fileCreated = true → (youtube_to_mp3 req wa).unlinkCalls = 1))
  ∧ ((youtube_to_video req wv).fsExists = false
      ∧ (youtube_to_video req wv).unlinkCalls ≤ 1
      ∧ (wv.fileCreated = true → (youtube_to_video req wv).unlinkCalls = 1)) := by
  constructor
  · unfold youtube_to_mp3
    rw [if_neg h, hua]
    unfold runFinally
    by_cases hfc : wa.fileCreated = true <;> simp [hfc]
  · unfold youtube_to_video
    rw [if_neg h, huv]
    unfold runFinally
    by_cases hvc : wv.fileCreated = true <;> simp [hvc]

/-- C3 witness: on a concrete successful run the file is gone afterwards
and was unlinked exactly once. -/
theorem cleanup_deletes_at_most_once_witness :
    (youtube_to_mp3 ⟨"https://example.com/v", defaultFormat⟩ audioWorldOk).fsExists = false
  ∧ (youtube_to_mp3 ⟨"https://example.com/v", defaultFormat⟩
      audioWorldOk).unlinkCalls = 1 :=
  ⟨(cleanup_deletes_at_most_once ⟨"https://example.com/v", defaultFormat⟩ audioWorldOk
      videoWorldOk (by decide) rfl rfl).1.1,
   (cleanup_deletes_at_most_once ⟨"https://example.com/v", defaultFormat⟩ audioWorldOk
      videoWorldOk (by decide) rfl rfl).1.2.2 rfl⟩

/-- C5 counterexample: on a fully successful run whose unlink raises, the
try-block produced the success `FileResponse`, yet the handler's final
result is the uncaught OS error from the `finally` block — the deletion
failure replaced the primary result. -/
theorem unlink_failure_replaces_primary_result :
    mp3TryBody audioWorldUnlinkFail =
      Except.ok (HandlerResult.fileResponse audioOutputFile "audio/mpeg" "audio.mp3")
  ∧ (youtube_to_mp3 ⟨"https://example.com/v", defaultFormat⟩
      audioWorldUnlinkFail).result = HandlerResult.osError := ⟨rfl, rfl⟩

/-- C5 (amended): a failure while deleting the temporary output file is
neither caught nor logged: the unlink exception escapes the `finally`
block, replaces the primary result of the request, and leaves the file
behind. -/
theorem unlink_failure_uncaught (req : MediaRequest) (wa : AudioWorld)
    (wv : VideoWorld) (h : ¬req.videoUrl = "")
    (ha1 : wa.unlinkFails = true) (ha2 : wa.fileCreated = true)
    (hv1 : wv.unlinkFails = true) (hv2 : wv.fileCreated = true) :
    (youtube_to_mp3 req wa).result = HandlerResult.osError
  ∧ (youtube_to_mp3 req wa).fsExists = true
  ∧ (youtube_to_video req wv).result = HandlerResult.osError
  ∧ (youtube_to_video req wv).fsExists = true := by
  unfold youtube_to_mp3
  rw [if_neg h, ha1, ha2]
  unfold youtube_to_video
  rw [if_neg h, hv1, hv2]
  exact ⟨rfl, rfl, rfl, rfl⟩

/-- C5 witness at concrete failing-unlink runs. -/
theorem unlink_failure_uncaught_witness :
    (youtube_to_mp3 ⟨"https://example.com/v", defaultFormat⟩
        audioWorldUnlinkFail).fsExists = true
  ∧ (youtube_to_video ⟨"https://example.com/v", defaultFormat⟩
        videoWorldUnlinkFail).result = HandlerResult.osError :=
  ⟨(unlink_failure_uncaught ⟨"https://example.com/v", defaultFormat⟩
      audioWorldUnlinkFail videoWorldUnlinkFail (by decide) rfl rfl rfl rfl).2.1,
   (unlink_failure_uncaught ⟨"https://example.com/v", defaultFormat⟩
      audioWorldUnlinkFail videoWorldUnlinkFail (by decide) rfl rfl rfl rfl).2.2.1⟩

/-- C8: on the success branch of either conversion endpoint (with a
working unlink), the handler hands the HTTP layer a `FileResponse`
naming the destination path, yet that very path has already been
unlinked by the `finally` block: it no longer exists at hand-off. -/
theorem success_response_references_deleted_file (req : MediaRequest)
    (wa : AudioWorld) (wv : VideoWorld) (h : ¬req.videoUrl = "")
    (ha1 : wa.ffmpegExit = 0) (ha2 : wa.fileCreated = true)
    (ha3 : wa.unlinkFails = false)
    (hv1 : wv.ytdlpExit = 0) (hv2 : wv.fileCreated = true)
    (hv3 : wv.unlinkFails = false) :
    (youtube_to_mp3 req wa).result =
      HandlerResult.fileResponse audioOutputFile "audio/mpeg" "audio.mp3"
  ∧ (youtube_to_mp3 req wa).fsExists = false
  ∧ (youtube_to_mp3 req wa).unlinkCalls = 1
  ∧ (youtube_to_video req wv).result =
      HandlerResult.fileResponse videoOutputFile "video/mp4" "video.mp4"
  ∧ (youtube_to_video req wv).fsExists = false
  ∧ (youtube_to_video req wv).unlinkCalls = 1 := by
  unfold youtube_to_mp3
  rw [if_neg h, ha2, ha3]
  unfold youtube_to_video
  rw [if_neg h, hv2, hv3]
  unfold runFinally tryExceptWrap mp3TryBody videoTryBody download_media
  simp [ha1, ha2, hv1, hv2]

/-- C8 witness at concrete successful runs. -/
theorem success_response_references_deleted_file_witness :
    (youtube_to_mp3 ⟨"https://example.com/v", defaultFormat⟩ audioWorldOk).result =
      HandlerResult.fileResponse audioOutputFile "audio/mpeg" "audio.mp3"
  ∧ (youtube_to_mp3 ⟨"https://example.com/v", defaultFormat⟩
      audioWorldOk).fsExists = false :=
  ⟨(success_response_references_deleted_file ⟨"https://example.com/v", defaultFormat⟩
      audioWorldOk videoWorldOk (by decide) rfl rfl rfl rfl rfl rfl).1,
   (success_response_references_deleted_file ⟨"https://example.com/v", defaultFormat⟩
      audioWorldOk videoWorldOk (by decide) rfl rfl rfl rfl rfl rfl).2.1⟩

/-- C9: in both conversion endpoints (with a working unlink), every
exception raised inside the try block is caught by the blanket `except`
clause and re-raised as HTTP 500 with its rendered message appended to
the detail string "Error processing the request: " — in particular the
internal `HTTPException` raised when the output file was not created is
itself caught and rewrapped the same way. -/
theorem blanket_except_rewraps_all (req : MediaRequest) (wa : AudioWorld)
    (wv : VideoWorld) (h : ¬req.videoUrl = "")
    (hua : wa.unlinkFails = false) (huv : wv.unlinkFails = false) :
    (∀ e, mp3TryBody wa = Except.error e →
      (youtube_to_mp3 req wa).result =
        HandlerResult.httpError 500 ("Error processing the request: " ++ e.str))
  ∧ (wa.ffmpegExit = 0 → wa.fileCreated = false →
      (youtube_to_mp3 req wa).result =
        HandlerResult.httpError 500 ("Error processing the request: " ++
          PyExc.str (PyExc.httpExc 500 "Audio conversion failed, file not created.")))
  ∧ (∀ e, videoTryBody wv = Except.error e →
      (youtube_to_video req wv).result =
        HandlerResult.httpError 500 ("Error processing the request: " ++ e.str))
  ∧ (wv.ytdlpExit = 0 → wv.fileCreated = false →
      (youtube_to_video req wv).result =
        HandlerResult.httpError 500 ("Error processing the request: " ++
          PyExc.str (PyExc.httpExc 500 "Video download failed, file not created."))) := by
  rw [youtube_to_mp3_result req wa h hua, youtube_to_video_result req wv h huv]
  refine ⟨?_, ?_, ?_, ?_⟩
  · intro e he
    rw [he]
    rfl
  · intro hfe hfc
    simp [tryExceptWrap, mp3TryBody, download_media, hfe, hfc]
  · intro e he
    rw [he]
    rfl
  · intro hve hvc
    simp [tryExceptWrap, videoTryBody, hve, hvc]

/-- C9 witness: the internal file-not-created HTTPException of each
endpoint is rewrapped with the "Error processing the request: " detail. -/
theorem blanket_except_rewraps_all_witness :
    (youtube_to_mp3 ⟨"https://example.com/v", defaultFormat⟩
        audioWorldFileMissing).result =
      HandlerResult.httpError 500 ("Error processing the request: " ++
        PyExc.str (PyExc.httpExc 500 "Audio conversion failed, file not created."))
  ∧ (youtube_to_video ⟨"https://example.com/v", defaultFormat⟩
        videoWorldFileMissing).result =
      HandlerResult.httpError 500 ("Error processing the request: " ++
        PyExc.str (PyExc.httpExc 500 "Video download failed, file not created.")) :=
  ⟨(blanket_except_rewraps_all ⟨"https://example.com/v", defaultFormat⟩
      audioWorldFileMissing videoWorldFileMissing (by decide) rfl rfl).2.1 rfl rfl,
   (blanket_except_rewraps_all ⟨"https://example.com/v", defaultFormat⟩
      audioWorldFileMissing videoWorldFileMissing (by decide) rfl rfl).2.2.2 rfl rfl⟩

/-- C6: building the metadata from the extractor output (i) copies every
field verbatim when all are present, (ii) defaults a missing view count,
like count or description to 0, 0 and the empty string instead of
failing, and (iii) yields an error (the KeyError surfaced as a fetch
failure) whenever title, uploader, duration or upload date is missing. -/
theorem metadata_fields_spec :
    (∀ t a d vc ud lk de th,
      buildMetadata ⟨some t, some a, some d, some vc, some ud, some lk, some de, some th⟩ =
        Except.ok ⟨t, a, d, vc, ud, lk, de, th⟩)
  ∧ (∀ t a d ud th,
      buildMetadata ⟨some t, some a, some d, none, some ud, none, none, some th⟩ =
        Except.ok ⟨t, a, d, 0, ud, 0, "", th⟩)
  ∧ (∀ info : ToolInfo,
      (info.title = none ∨ info.uploader = none ∨ info.duration = none ∨
        info.upload_date = none) →
      ∃ m, buildMetadata info = Except.error m) := by
  refine ⟨?_, ?_, ?_⟩
  · intro t a d vc ud lk de th
    rfl
  · intro t a d ud th
    rfl
  · intro info hmiss
    rcases info with ⟨t, a, d, vc, ud, lk, de, th⟩
    cases t <;> cases a <;> cases d <;> cases ud <;>
      simp_all [buildMetadata, dictGet]

/-- C6 witness: a concrete extractor output missing the title yields an
error, and a concrete complete output round-trips verbatim. -/
theorem metadata_fields_spec_witness :
    (∃ m, buildMetadata ⟨none, some "chan", some 63, some 10, some "20240101",
        some 2, some "desc", some ["thumb"]⟩ = Except.error m)
  ∧ buildMetadata ⟨some "t", some "chan", some 63, some 10, some "20240101",
        some 2, some "desc", some ["thumb"]⟩ =
      Except.ok ⟨"t", "chan", 63, 10, "20240101", 2, "desc", ["thumb"]⟩ :=
  ⟨metadata_fields_spec.2.2 _ (Or.inl rfl),
   metadata_fields_spec.1 "t" "chan" 63 10 "20240101" 2 "desc" ["thumb"]⟩

end YtApp
